import Mathlib

/-!
# Verification of `astrobase/awsutils.py`

A shallow embedding, in Lean 4, of the AWS-facing orchestration core in
`astrobase/awsutils.py`, together with theorems settling the frozen claims
about it.

Modelling conventions:

* Provider-side calls (boto3 client methods) are passed in as explicit
  function/value parameters describing the provider's behaviour; a raised
  provider exception is `Except.error ()`, a normal response is `Except.ok _`.
* A Python `None` return is `Option.none`; a falsy response object is also
  modelled by an explicit `none` layer where the source tests `if not resp`.
* `time.sleep` is modelled by accumulating the slept seconds where a claim
  mentions delays; it has no other observable effect.
* Logging calls have no observable effect except where a claim is about
  whether a failure was logged; there the embedding returns an extra `Bool`
  recording whether `LOGEXCEPTION` ran.
-/

namespace Awsutils

/-! ## Small string helpers mirroring `os.path` usage in the source -/

/-- Index of the last occurrence of `c` in a character list, if any. -/
def lastIdxOf (c : Char) : List Char → Option Nat
  | [] => none
  | x :: xs =>
    match lastIdxOf c xs with
    | some i => some (i + 1)
    | none => if x = c then some 0 else none

/-- `os.path.basename`: everything after the last `/`. -/
def pyBasename (p : String) : String :=
  match lastIdxOf '/' p.data with
  | some i => String.mk (p.data.drop (i + 1))
  | none => p

/-- `os.path.splitext`: splits off the extension at the last dot of the
basename, ignoring any leading dots of the basename (so `.bashrc` has no
extension). Returns `(root, ext)` with `root ++ ext = p`. -/
def splitext (p : String) : String × String :=
  let cs := p.data
  let bstart := match lastIdxOf '/' cs with
    | some i => i + 1
    | none => 0
  let base := cs.drop bstart
  let lead := (base.takeWhile (fun c => c = '.')).length
  match lastIdxOf '.' (base.drop lead) with
  | none => (p, "")
  | some i =>
    let cut := bstart + lead + i
    (String.mk (cs.take cut), String.mk (cs.drop cut))

/-! ## S3: `s3_get_file`, `s3_put_file`

`s3_get_file` is driven by a download oracle `dl bucket key : Bool` saying
whether `client.download_file(bucket, key, dest)` succeeds (raises on
`false`).  The result is the pair of

* the function result: `.error ()` when the source re-raises,
  `.ok (some path)` for a successful download, `.ok none` for the `None`
  return (explicit or by falling off the end of the function); and
* a `Bool` recording whether `LOGEXCEPTION` was called.

The source computes the destination of an alternate download as
`local_file.replace(split_ext[-1], alt_extension)`, i.e. a replace-all of the
extension substring; `String.replace` has the same replace-all semantics
(the degenerate empty-extension case is not exercised by any theorem below).
-/

/-- The `for alt_extension in altexts` loop of `s3_get_file`: try each
alternate extension in order, returning the first successful destination
path; falls through to `none` when all fail (the source then falls off the
end of the `except` block, returning `None`). -/
def s3_try_alts (dl : String → String → Bool)
    (bucket filename local_file : String) : List String → Option String
  | [] => none
  | alt_extension :: rest =>
    let split_ext := splitext filename
    let check_file := split_ext.1 ++ alt_extension
    if dl bucket check_file then
      some (local_file.replace split_ext.2 alt_extension)
    else
      s3_try_alts dl bucket filename local_file rest

/-- `s3_get_file(bucket, filename, local_file, altexts, raiseonfail)`. -/
def s3_get_file (dl : String → String → Bool)
    (bucket filename local_file : String)
    (altexts : Option (List String)) (raiseonfail : Bool) :
    Except Unit (Option String) × Bool :=
  if dl bucket filename then
    (.ok (some local_file), false)
  else
    match altexts with
    | some exts => (.ok (s3_try_alts dl bucket filename local_file exts), false)
    | none =>
      if raiseonfail then (.error (), true) else (.ok none, true)

/-- `s3_put_file(local_file, bucket, raiseonfail)`, driven by the outcome of
`client.upload_file`. -/
def s3_put_file (upload : Except Unit Unit)
    (local_file bucket : String) (raiseonfail : Bool) :
    Except Unit (Option String) :=
  match upload with
  | .ok _ => .ok (some ("s3://" ++ bucket ++ "/" ++ pyBasename local_file))
  | .error e => if raiseonfail then .error e else .ok none

/-! ## SQS: `sqs_create_queue`, `sqs_delete_queue`, `sqs_get_item` -/

/-- `sqs_create_queue(queue_name, options)`: the provider outcome is the
result of `client.create_queue` — `.error ()` a raised exception, `.ok none`
a falsy response, `.ok (some url)` a response carrying `QueueUrl`.  The
function has **no** `raiseonfail` parameter in the source: every failure is
logged and converted to `None`. -/
def sqs_create_queue (create_queue : Except Unit (Option String))
    (queue_name : String) : Option (String × String) :=
  match create_queue with
  | .error _ => none
  | .ok none => none
  | .ok (some url) => some (url, queue_name)

/-- `sqs_delete_queue(queue_url)`: `True` on success, `False` on a raised
exception; no `raiseonfail` parameter exists in the source. -/
def sqs_delete_queue (delete_queue : Except Unit Unit) : Bool :=
  match delete_queue with
  | .ok _ => true
  | .error _ => false

/-- One raw SQS message as returned inside `resp['Messages']`. -/
structure SqsRawMessage where
  MessageId : String
  ReceiptHandle : String
  MD5OfBody : String
  Attributes : List (String × String)
  Body : String
deriving DecidableEq, Repr

/-- One deserialized message dict built by `sqs_get_item`; `item` is the
result of `json.loads(msg['Body'])`, abstracted to a `String`. -/
structure SqsMessage where
  id : String
  receipt_handle : String
  md5 : String
  attributes : List (String × String)
  item : String
deriving DecidableEq, Repr

/-- The `for msg in resp.get('Messages', [])` loop of `sqs_get_item`:
a message whose body fails to deserialize (`json_loads` returns `none`) is
logged and skipped (`continue`); every other message is appended. -/
def sqsCollectMessages (json_loads : String → Option String) :
    List SqsRawMessage → List SqsMessage
  | [] => []
  | msg :: rest =>
    match json_loads msg.Body with
    | some it =>
      { id := msg.MessageId
        receipt_handle := msg.ReceiptHandle
        md5 := msg.MD5OfBody
        attributes := msg.Attributes
        item := it } :: sqsCollectMessages json_loads rest
    | none => sqsCollectMessages json_loads rest

/-- `sqs_get_item(queue_url, ..., raiseonfail)`: the provider outcome is the
result of `client.receive_message` — `.error ()` a raised exception,
`.ok none` a falsy response (the source logs and falls off the end, returning
`None`), `.ok (some msgs)` a response whose `Messages` list is `msgs` (an
expired long-poll yields `.ok (some [])`: the `Messages` key is absent and
`resp.get('Messages', [])` is empty). -/
def sqs_get_item (json_loads : String → Option String)
    (receive_message : Except Unit (Option (List SqsRawMessage)))
    (raiseonfail : Bool) : Except Unit (Option (List SqsMessage)) :=
  match receive_message with
  | .error _ => if raiseonfail then .error () else .ok none
  | .ok none => .ok none
  | .ok (some msgs) => .ok (some (sqsCollectMessages json_loads msgs))

/-! ## EC2 fixed nodes: `make_ec2_nodes` wait loop, `delete_ec2_nodes`

The `wait_until_up` poll loop of `make_ec2_nodes` (source lines 869-918).
`client.describe_instances` is driven by a trace: `trace n` is the flattened
response of the `n`-th poll, a list of reservations, each a list of observed
instances.  Only the fields the loop reads are modelled (`InstanceId`,
`State.Name`, `PublicIpAddress`); the raw `info` blob stored alongside is
omitted.  The loop has no bound in the source; the embedding runs it on
explicit fuel, `none` meaning the loop is still running after `fuel`
iterations.
-/

/-- One instance record inside a `describe_instances` reservation. -/
structure PolledInstance where
  InstanceId : String
  stateName : String
  PublicIpAddress : String
deriving DecidableEq, Repr

/-- The per-instance value kept in `instance_dict` (minus the raw `info`
blob). -/
structure Ec2InstanceInfo where
  itype : String
  launched : String
  state : String
  ip : Option String
deriving DecidableEq, Repr

/-- The mutable state of the `wait_until_up` loop: the try counter, the
`ready_instances` list, and `instance_dict` as an insertion-ordered
association list. -/
structure Ec2WaitState where
  curr_try : Nat
  ready_instances : List String
  instance_dict : List (String × Ec2InstanceInfo)
deriving DecidableEq, Repr

/-- `instance_dict[iid]['state'] = 'running'; instance_dict[iid]['ip'] = ip`.
(The source would raise `KeyError` for an id absent from the dict; the
responses used below only ever mention ids the dict contains, for which the
two behaviours agree.) -/
def setRunning (d : List (String × Ec2InstanceInfo)) (iid ip : String) :
    List (String × Ec2InstanceInfo) :=
  d.map (fun kv =>
    if kv.1 = iid then (kv.1, { kv.2 with state := "running", ip := some ip })
    else kv)

/-- Body of the innermost `for instance in resv['Instances']` loop: an
instance observed `running` is appended to `ready_instances` (no
de-duplication) and its `instance_dict` entry is updated. -/
def processInstance (s : Ec2WaitState) (inst : PolledInstance) : Ec2WaitState :=
  if inst.stateName = "running" then
    { s with
      ready_instances := s.ready_instances ++ [inst.InstanceId]
      instance_dict := setRunning s.instance_dict inst.InstanceId inst.PublicIpAddress }
  else s

/-- Processing one `describe_instances` response (the nested
`for resv ... for instance ...` loops; the `len(...) > 0` guards in the
source are no-ops on empty lists). -/
def processPoll (resp : List (List PolledInstance)) (s : Ec2WaitState) :
    Ec2WaitState :=
  resp.foldl (fun s resv => resv.foldl processInstance s) s

/-- The loop guard:
`(curr_try < ntries) or (len(ready_instances) < len(instance_dict.keys()))`.
Note the inclusive **or**. -/
def ec2WaitCond (ntries : Nat) (s : Ec2WaitState) : Bool :=
  decide (s.curr_try < ntries) ||
    decide (s.ready_instances.length < s.instance_dict.length)

/-- The `while` loop itself, on explicit fuel: each iteration polls
`trace s.curr_try`, processes the response, increments `curr_try` and
sleeps 5 seconds.  `none` means the guard was still true after `fuel`
iterations (the source would keep looping). -/
def ec2WaitLoop (trace : Nat → List (List PolledInstance)) (ntries : Nat) :
    Nat → Ec2WaitState → Option Ec2WaitState
  | 0, _ => none
  | fuel + 1, s =>
    if ec2WaitCond ntries s then
      let s' := processPoll (trace s.curr_try) s
      ec2WaitLoop trace ntries fuel { s' with curr_try := s'.curr_try + 1 }
    else some s

/-- The post-loop report: `len(ready_instances) == len(instance_dict.keys())`
selects `LOGINFO('all instances now up.')` over the max-tries warning. -/
def ec2AllUpReported (s : Ec2WaitState) : Bool :=
  s.ready_instances.length == s.instance_dict.length

/-- The tail of `make_ec2_nodes` after a successful `run_instances` call
built `instance_dict`: run the wait loop when `wait_until_up`, then return
the final `instance_dict` together with whether the all-up message was
logged (`false` in the no-wait branch, where no report is made).  `none`
means the wait loop was still running after `fuel` iterations. -/
def make_ec2_nodes_after_launch (trace : Nat → List (List PolledInstance))
    (instance_dict : List (String × Ec2InstanceInfo))
    (wait_until_up : Bool) (fuel : Nat) :
    Option (List (String × Ec2InstanceInfo) × Bool) :=
  if wait_until_up then
    match ec2WaitLoop trace 5 fuel { curr_try := 0, ready_instances := [], instance_dict := instance_dict } with
    | none => none
    | some s => some (s.instance_dict, ec2AllUpReported s)
  else some (instance_dict, false)

/-- `delete_ec2_nodes(instance_id_list)`: the source wraps
`client.terminate_instances` in **no** `try/except` and has no `raiseonfail`
parameter — the provider outcome, exception included, is returned as-is. -/
def delete_ec2_nodes {α : Type} (terminate_instances : List String → Except Unit α)
    (instance_id_list : List String) : Except Unit α :=
  terminate_instances instance_id_list

/-! ## Spot fleet clusters

`make_spot_fleet_cluster` builds its request config from two module-level
templates.  `SPOT_FLEET_CONFIG` is taken with `copy.deepcopy`;
`SPOT_PERINSTANCE_CONFIG` is taken with the **shallow** `dict.copy()`, so its
nested `IamInstanceProfile` dict and `SecurityGroups` list stay shared
between every copy and the module template.  To make that sharing
expressible, the nested objects live in an explicit heap addressed by `Nat`,
and a per-instance config holds heap addresses for them; `dict.copy()` is a
record copy (same addresses), and writing through
`thisinstance['IamInstanceProfile']['Arn'] = ...` is a heap update visible
through every alias.
-/

/-- The nested `"IamInstanceProfile": {"Arn": ...}` dict. -/
structure IamInstanceProfileDict where
  Arn : String
deriving DecidableEq, Repr

/-- One entry of the nested `"SecurityGroups"` list. -/
structure SecurityGroupEntry where
  GroupId : String
deriving DecidableEq, Repr

/-- The top-level fields of `SPOT_PERINSTANCE_CONFIG` (and of each
`thisinstance` shallow copy).  `IamInstanceProfileRef` and
`SecurityGroupsRef` are heap addresses of the shared nested objects.
`WeightedCapacity` is absent (`none`) until assigned; weight values are
modelled as `Rat`. -/
structure SpotPerInstanceConfig where
  InstanceType : String
  ImageId : String
  SubnetId : String
  KeyName : String
  IamInstanceProfileRef : Nat
  SecurityGroupsRef : Nat
  UserData : String
  EbsOptimized : Bool
  WeightedCapacity : Option Rat := none
deriving DecidableEq, Repr

/-- The top-level fields of `SPOT_FLEET_CONFIG`.  Its
`LaunchSpecifications` list is deep-copied per call, so it is held by value
(the `Type` key is spelled `fleetType`; `ValidUntil` is the formatted expiry
string). -/
structure SpotFleetConfig where
  IamFleetRole : String
  AllocationStrategy : String
  TargetCapacity : Nat
  SpotPrice : String
  TerminateInstancesWithExpiration : Bool
  InstanceInterruptionBehavior : String
  LaunchSpecifications : List SpotPerInstanceConfig
  fleetType : String
  ReplaceUnhealthyInstances : Bool
  ValidUntil : String
deriving DecidableEq, Repr

/-- The mutable module-level state: the two template dicts and the heap of
nested objects the per-instance template points into.  The source never
rebinds the template names themselves, so the template slots change only if
some call writes through them. -/
structure PyHeap where
  perInstanceTemplate : SpotPerInstanceConfig
  fleetTemplate : SpotFleetConfig
  profiles : Nat → IamInstanceProfileDict
  secGroupLists : Nat → List SecurityGroupEntry

/-- Module constant `SPOT_FLEET_CONFIG` (source lines 977-988). -/
def SPOT_FLEET_CONFIG : SpotFleetConfig :=
  { IamFleetRole := "iam-fleet-role-arn"
    AllocationStrategy := "lowestPrice"
    TargetCapacity := 20
    SpotPrice := "0.4"
    TerminateInstancesWithExpiration := true
    InstanceInterruptionBehavior := "terminate"
    LaunchSpecifications := []
    fleetType := "maintain"
    ReplaceUnhealthyInstances := true
    ValidUntil := "datetime-utc" }

/-- Module constant `SPOT_INSTANCE_TYPES` (source lines 991-997). -/
def SPOT_INSTANCE_TYPES : List String :=
  ["m5.xlarge", "m5.2xlarge", "c5.xlarge", "c5.2xlarge", "c5.4xlarge"]

/-- Module constant `SPOT_PERINSTANCE_CONFIG` (source lines 1000-1015); its
nested profile dict and security-group list are the heap objects at
address 0 of `initialPyHeap`. -/
def SPOT_PERINSTANCE_CONFIG : SpotPerInstanceConfig :=
  { InstanceType := "instance-type"
    ImageId := "image-id"
    SubnetId := "subnet-id"
    KeyName := "keypair-name"
    IamInstanceProfileRef := 0
    SecurityGroupsRef := 0
    UserData := "base64-encoded-userdata"
    EbsOptimized := true }

/-- The module state right after import: the templates as written in the
source, with the nested objects at heap address 0. -/
def initialPyHeap : PyHeap :=
  { perInstanceTemplate := SPOT_PERINSTANCE_CONFIG
    fleetTemplate := SPOT_FLEET_CONFIG
    profiles := fun _ => { Arn := "instance-profile-role-arn" }
    secGroupLists := fun _ => [{ GroupId := "security-group-id" }] }

/-- `thisinstance['IamInstanceProfile']['Arn'] = arn`: heap write through the
shared reference. -/
def writeProfileArn (h : PyHeap) (addr : Nat) (arn : String) : PyHeap :=
  { h with profiles := fun a => if a = addr then { Arn := arn } else h.profiles a }

/-- `thisinstance['SecurityGroups'][0] = {'GroupId': gid}`: heap write of
index 0 of the shared list (the source would raise `IndexError` on an empty
list; the template list is never empty here, so `List.set` agrees). -/
def writeSecGroup0 (h : PyHeap) (addr : Nat) (gid : String) : PyHeap :=
  { h with secGroupLists := fun a =>
      if a = addr then (h.secGroupLists a).set 0 { GroupId := gid }
      else h.secGroupLists a }

/-- The `for ind, itype in enumerate(instance_types)` loop of
`make_spot_fleet_cluster` (source lines 1166-1182): per type, shallow-copy
the per-instance template, overwrite its top-level fields, write the IAM arn
and security group through the shared nested references, optionally set the
positional weight, and collect the spec.  Returns the final heap and the
specs in order; `none` models the `IndexError` the source raises when a
weights list shorter than `instance_types` is indexed. -/
def spotLaunchSpecsLoop (instance_ami subnet_id keypair_name
    iam_instance_profile_arn security_groupid udata : String)
    (instance_ebs_optimized : Bool) (instance_weights : Option (List Rat)) :
    PyHeap → Nat → List String →
    Option (PyHeap × List SpotPerInstanceConfig)
  | h, _, [] => some (h, [])
  | h, ind, itype :: rest =>
    let thisinstance := h.perInstanceTemplate
    let thisinstance :=
      { thisinstance with
        InstanceType := itype
        ImageId := instance_ami
        SubnetId := subnet_id
        KeyName := keypair_name
        UserData := udata
        EbsOptimized := instance_ebs_optimized }
    let h := writeProfileArn h thisinstance.IamInstanceProfileRef
      iam_instance_profile_arn
    let h := writeSecGroup0 h thisinstance.SecurityGroupsRef security_groupid
    match instance_weights with
    | some ws =>
      match ws.get? ind with
      | none => none
      | some w =>
        let thisinstance := { thisinstance with WeightedCapacity := some w }
        (spotLaunchSpecsLoop instance_ami subnet_id keypair_name
            iam_instance_profile_arn security_groupid udata
            instance_ebs_optimized instance_weights h (ind + 1) rest).map
          (fun hr => (hr.1, thisinstance :: hr.2))
    | none =>
      (spotLaunchSpecsLoop instance_ami subnet_id keypair_name
          iam_instance_profile_arn security_groupid udata
          instance_ebs_optimized instance_weights h (ind + 1) rest).map
        (fun hr => (hr.1, thisinstance :: hr.2))

/-- The config-building prefix of `make_spot_fleet_cluster` (source lines
1138-1182): deep-copy the fleet template, overwrite its call-specific fields
(`spot_price` arrives already stringified, `valid_until` already formatted —
`str(...)` and `datetime` arithmetic are outside the model), then append the
launch specs built by the loop. -/
def make_spot_fleet_cluster_config (h : PyHeap)
    (security_groupid subnet_id keypair_name iam_instance_profile_arn
      spot_fleet_iam_role : String)
    (target_capacity : Nat) (spot_price valid_until allocation_strategy : String)
    (instance_types : List String) (instance_weights : Option (List Rat))
    (instance_ami udata : String) (instance_ebs_optimized : Bool) :
    Option (PyHeap × SpotFleetConfig) :=
  let fleetconfig := h.fleetTemplate
  let fleetconfig :=
    { fleetconfig with
      IamFleetRole := spot_fleet_iam_role
      AllocationStrategy := allocation_strategy
      TargetCapacity := target_capacity
      SpotPrice := spot_price
      ValidUntil := valid_until }
  (spotLaunchSpecsLoop instance_ami subnet_id keypair_name
      iam_instance_profile_arn security_groupid udata instance_ebs_optimized
      instance_weights h 0 instance_types).map
    (fun hr =>
      (hr.1, { fleetconfig with
               LaunchSpecifications := fleetconfig.LaunchSpecifications ++ hr.2 }))

/-- The `wait_until_up` poll loop of `make_spot_fleet_cluster` (source lines
1213-1240) on the remaining tries as fuel, with `curr` the current value of
`curr_try`.  `trace curr` is the outcome of the `curr`-th
`describe_spot_fleet_requests` call: a raised exception, or the list of
`SpotFleetRequestConfigs` entries modelled by their `SpotFleetRequestState`
strings.  Returns `(polls issued, seconds slept, active seen)`: an iteration
that sees state `active` breaks immediately; any other iteration sleeps 15
seconds and retries. -/
def spotFleetWaitAux (trace : Nat → Except Unit (List String)) :
    Nat → Nat → Except Unit (Nat × Nat × Bool)
  | 0, _ => .ok (0, 0, false)
  | fuel + 1, curr =>
    match trace curr with
    | .error e => .error e
    | .ok curr_state =>
      if curr_state.head? = some "active" then .ok (1, 0, true)
      else
        match spotFleetWaitAux trace fuel (curr + 1) with
        | .error e => .error e
        | .ok (p, slept, b) => .ok (p + 1, slept + 15, b)

/-- The wait loop as run by the source: `ntries = 10`, starting at
`curr_try = 0`. -/
def spotFleetWait (trace : Nat → Except Unit (List String)) :
    Except Unit (Nat × Nat × Bool) :=
  spotFleetWaitAux trace 10 0

/-- `make_spot_fleet_cluster` in full: build the config (a too-short weights
list raises `IndexError` before the `try`, modelled by the outer `none`),
submit it via `request_spot_fleet`, and optionally run the wait loop.  The
successful result carries the final heap, the function result
(`.ok (some reqid)` success, `.ok none` soft failure, `.error ()` re-raised
provider exception) and `(polls, slept)` of the wait loop. -/
def make_spot_fleet_cluster (h : PyHeap)
    (request_spot_fleet : SpotFleetConfig → Except Unit (Option String))
    (describe_trace : Nat → Except Unit (List String))
    (security_groupid subnet_id keypair_name iam_instance_profile_arn
      spot_fleet_iam_role : String)
    (target_capacity : Nat) (spot_price valid_until allocation_strategy : String)
    (instance_types : List String) (instance_weights : Option (List Rat))
    (instance_ami udata : String) (instance_ebs_optimized : Bool)
    (wait_until_up raiseonfail : Bool) :
    Option (PyHeap × Except Unit (Option String) × (Nat × Nat)) :=
  match make_spot_fleet_cluster_config h security_groupid subnet_id
      keypair_name iam_instance_profile_arn spot_fleet_iam_role
      target_capacity spot_price valid_until allocation_strategy
      instance_types instance_weights instance_ami udata
      instance_ebs_optimized with
  | none => none
  | some (h', fleetconfig) =>
    match request_spot_fleet fleetconfig with
    | .error _ =>
      some (h', if raiseonfail then .error () else .ok none, (0, 0))
    | .ok none => some (h', .ok none, (0, 0))
    | .ok (some spot_fleet_reqid) =>
      if !wait_until_up then
        some (h', .ok (some spot_fleet_reqid), (0, 0))
      else
        match spotFleetWait describe_trace with
        | .error _ =>
          some (h', if raiseonfail then .error () else .ok none, (0, 0))
        | .ok (polls, slept, _) =>
          some (h', .ok (some spot_fleet_reqid), (polls, slept))

/-- The argument record of one `client.cancel_spot_fleet_requests` call. -/
structure CancelSpotFleetArgs where
  SpotFleetRequestIds : List String
  TerminateInstances : Bool
deriving DecidableEq, Repr

/-- `delete_spot_fleet_cluster(spot_fleet_reqid)`: issues the single
`cancel_spot_fleet_requests` call with `TerminateInstances=True` and returns
its raw outcome (no `try/except` in the source).  The second component is
the list of provider calls issued, for stating call-count properties. -/
def delete_spot_fleet_cluster {α : Type}
    (cancel_spot_fleet_requests : CancelSpotFleetArgs → Except Unit α)
    (spot_fleet_reqid : String) :
    Except Unit α × List CancelSpotFleetArgs :=
  let args : CancelSpotFleetArgs :=
    { SpotFleetRequestIds := [spot_fleet_reqid], TerminateInstances := true }
  (cancel_spot_fleet_requests args, [args])

/-! ## Derived notions and concrete scenarios used by the theorems -/

/-- A `describe_instances` trace in which no instance is ever reported
`running`. -/
def NeverRunning (trace : Nat → List (List PolledInstance)) : Prop :=
  ∀ n resv inst, resv ∈ trace n → inst ∈ resv → inst.stateName ≠ "running"

/-- Mark one `instance_dict` entry as running with ip `ipf k`. -/
def ec2Mark (ipf : String → String) (kv : String × Ec2InstanceInfo) :
    String × Ec2InstanceInfo :=
  (kv.1, { kv.2 with state := "running", ip := some (ipf kv.1) })

/-- Mark the entries of `d` whose key occurs in `l`. -/
def ec2MarkWhere (d : List (String × Ec2InstanceInfo)) (l : List String)
    (ipf : String → String) : List (String × Ec2InstanceInfo) :=
  d.map (fun kv => if kv.1 ∈ l then ec2Mark ipf kv else kv)

/-- Mark every entry of `d` as running. -/
def ec2MarkAll (d : List (String × Ec2InstanceInfo)) (ipf : String → String) :
    List (String × Ec2InstanceInfo) :=
  d.map (ec2Mark ipf)

/-- A `describe_instances` response reporting every key of `keys` as
`running`, in one reservation. -/
def allRunningResp (keys : List String) (ipf : String → String) :
    List (List PolledInstance) :=
  [keys.map (fun k => { InstanceId := k, stateName := "running",
                        PublicIpAddress := ipf k })]

/-- `instance_dict` after a one-instance launch whose instance starts out
`pending`. -/
def oneNodeDict : List (String × Ec2InstanceInfo) :=
  [("i-0aaa", { itype := "t3.micro", launched := "2018-10-11T00:00:00",
                state := "pending", ip := none })]

/-- A provider that reports the single instance `pending` on every poll. -/
def neverRunningTrace : Nat → List (List PolledInstance) :=
  fun _ => [[{ InstanceId := "i-0aaa", stateName := "pending",
               PublicIpAddress := "" }]]

/-- A provider that reports the single instance `running` from the very
first poll on. -/
def instantRunningTrace : Nat → List (List PolledInstance) :=
  fun _ => [[{ InstanceId := "i-0aaa", stateName := "running",
               PublicIpAddress := "54.0.0.1" }]]

/-- `instance_dict` after a two-instance launch, both `pending`. -/
def twoNodeDict : List (String × Ec2InstanceInfo) :=
  [("i-0aaa", { itype := "t3.micro", launched := "2018-10-11T00:00:00",
                state := "pending", ip := none }),
   ("i-0bbb", { itype := "t3.micro", launched := "2018-10-11T00:00:00",
                state := "pending", ip := none })]

/-- A provider trace for the two-instance launch in which only `i-0aaa` ever
runs: it is reported `running` on polls 3 and 4 and `pending` before, while
`i-0bbb` is reported `pending` on every poll. -/
def subsetRunTrace : Nat → List (List PolledInstance) :=
  fun n =>
    if n = 3 ∨ n = 4 then
      [[{ InstanceId := "i-0aaa", stateName := "running",
          PublicIpAddress := "54.0.0.1" },
        { InstanceId := "i-0bbb", stateName := "pending",
          PublicIpAddress := "" }]]
    else
      [[{ InstanceId := "i-0aaa", stateName := "pending",
          PublicIpAddress := "" },
        { InstanceId := "i-0bbb", stateName := "pending",
          PublicIpAddress := "" }]]

/-- The value of `thisinstance` (before any weight assignment) built by one
iteration of the launch-spec loop: a shallow copy of the per-instance
template with the call's top-level fields written. -/
def mkThisInstance (h : PyHeap) (itype instance_ami subnet_id keypair_name
    udata : String) (instance_ebs_optimized : Bool) : SpotPerInstanceConfig :=
  { h.perInstanceTemplate with
    InstanceType := itype
    ImageId := instance_ami
    SubnetId := subnet_id
    KeyName := keypair_name
    UserData := udata
    EbsOptimized := instance_ebs_optimized }

/-- The two heap writes one iteration of the launch-spec loop performs
through the shared references of the per-instance template. -/
def perInstanceWrites (h : PyHeap) (iam_instance_profile_arn
    security_groupid : String) : PyHeap :=
  writeSecGroup0
    (writeProfileArn h h.perInstanceTemplate.IamInstanceProfileRef
      iam_instance_profile_arn)
    h.perInstanceTemplate.SecurityGroupsRef security_groupid

/-- A `describe_spot_fleet_requests` trace whose reported state is
`submitted` before poll 3 and `active` from poll 3 on. -/
def fleetActiveAt3 : Nat → Except Unit (List String) :=
  fun n => .ok (if n = 3 then ["active"] else ["submitted"])

/-- A `describe_spot_fleet_requests` trace that always reports
`submitted`. -/
def fleetNeverActive : Nat → Except Unit (List String) :=
  fun _ => .ok ["submitted"]

/-- Download oracle for the S3 witnesses: only the key `f.a2` exists. -/
def dlOnlyAlt2 : String → String → Bool :=
  fun _ key => key == "f.a2"

/-- Download oracle for the S3 witnesses: no key exists. -/
def dlNothing : String → String → Bool :=
  fun _ _ => false

/-- A `json.loads` oracle for the SQS witnesses: the body `corrupt` fails to
deserialize, everything else deserializes to itself. -/
def jsonLoadsNoCorrupt : String → Option String :=
  fun s => if s == "corrupt" then none else some s

/-- A well-formed raw SQS message with the given id and body. -/
def mkRawMsg (i body : String) : SqsRawMessage :=
  { MessageId := i, ReceiptHandle := "rh-" ++ i, MD5OfBody := "md5-" ++ i,
    Attributes := [("SentTimestamp", "0")], Body := body }

/-! ## Helper lemmas -/

theorem processInstance_not_running {s : Ec2WaitState} {inst : PolledInstance}
    (h : inst.stateName ≠ "running") : processInstance s inst = s := by
  simp [processInstance, h]

theorem foldl_processInstance_not_running {l : List PolledInstance}
    (h : ∀ inst ∈ l, inst.stateName ≠ "running") :
    ∀ s : Ec2WaitState, l.foldl processInstance s = s := by
  induction l with
  | nil => intro s; rfl
  | cons x xs ih =>
    intro s
    rw [List.foldl_cons,
      processInstance_not_running (h x (List.mem_cons_self x xs))]
    exact ih (fun inst hi => h inst (List.mem_cons_of_mem x hi)) s

theorem processPoll_not_running {resp : List (List PolledInstance)}
    (h : ∀ resv ∈ resp, ∀ inst ∈ resv, inst.stateName ≠ "running")
    (s : Ec2WaitState) : processPoll resp s = s := by
  unfold processPoll
  induction resp with
  | nil => rfl
  | cons r rs ih =>
    rw [List.foldl_cons,
      foldl_processInstance_not_running (h r (List.mem_cons_self r rs))]
    exact ih (fun resv hr => h resv (List.mem_cons_of_mem r hr))

theorem ec2WaitLoop_never_running
    {trace : Nat → List (List PolledInstance)} (hnr : NeverRunning trace)
    {d : List (String × Ec2InstanceInfo)} (hd : d ≠ []) :
    ∀ (fuel n : Nat),
      ec2WaitLoop trace 5 fuel
        { curr_try := n, ready_instances := [], instance_dict := d } = none := by
  intro fuel
  induction fuel with
  | zero => intro n; rfl
  | succ fuel ih =>
    intro n
    have hcond : ec2WaitCond 5
        { curr_try := n, ready_instances := [], instance_dict := d } = true := by
      have hlen : 0 < d.length := List.length_pos.mpr hd
      simp [ec2WaitCond, hlen]
    have hpoll : processPoll (trace n)
        { curr_try := n, ready_instances := [], instance_dict := d } =
        { curr_try := n, ready_instances := [], instance_dict := d } :=
      processPoll_not_running (fun resv hr inst hi => hnr n resv inst hr hi) _
    rw [ec2WaitLoop, if_pos hcond, hpoll]
    exact ih (n + 1)

theorem foldl_processInstance_all_running (ipf : String → String) :
    ∀ (l : List String) (s : Ec2WaitState),
      (l.map (fun k => PolledInstance.mk k "running" (ipf k))).foldl
          processInstance s =
        { s with
          ready_instances := s.ready_instances ++ l
          instance_dict :=
            l.foldl (fun d k => setRunning d k (ipf k)) s.instance_dict } := by
  intro l
  induction l with
  | nil => intro s; simp
  | cons k ks ih =>
    intro s
    rw [List.map_cons, List.foldl_cons]
    have hk : processInstance s (PolledInstance.mk k "running" (ipf k)) =
        { s with
          ready_instances := s.ready_instances ++ [k]
          instance_dict := setRunning s.instance_dict k (ipf k) } := by
      simp [processInstance]
    rw [hk, ih]
    simp

theorem setRunning_eq_map (d : List (String × Ec2InstanceInfo)) (k ip : String) :
    setRunning d k ip =
      d.map (fun kv =>
        if kv.1 = k then (kv.1, { kv.2 with state := "running", ip := some ip })
        else kv) := rfl

theorem foldl_setRunning_eq_markWhere (ipf : String → String) :
    ∀ (l : List String) (d : List (String × Ec2InstanceInfo)),
      l.foldl (fun d k => setRunning d k (ipf k)) d = ec2MarkWhere d l ipf := by
  intro l
  induction l with
  | nil =>
    intro d
    simp [ec2MarkWhere]
  | cons k ks ih =>
    intro d
    rw [List.foldl_cons, ih, setRunning_eq_map, ec2MarkWhere, ec2MarkWhere,
      List.map_map]
    refine List.map_congr_left ?_
    intro kv _
    by_cases hk : kv.1 = k
    · by_cases hl : kv.1 ∈ ks <;>
        simp [Function.comp, hk, hl, ec2Mark, List.mem_cons]
    · by_cases hl : kv.1 ∈ ks <;>
        simp [Function.comp, hk, hl, ec2Mark, List.mem_cons]

theorem processPoll_all_running (keys : List String) (ipf : String → String)
    (s : Ec2WaitState) :
    processPoll (allRunningResp keys ipf) s =
      { s with
        ready_instances := s.ready_instances ++ keys
        instance_dict := ec2MarkWhere s.instance_dict keys ipf } := by
  unfold processPoll allRunningResp
  rw [List.foldl_cons, List.foldl_nil, foldl_processInstance_all_running,
    foldl_setRunning_eq_markWhere]

theorem ec2MarkWhere_keys (d : List (String × Ec2InstanceInfo))
    (ipf : String → String) :
    ec2MarkWhere d (d.map Prod.fst) ipf = ec2MarkAll d ipf := by
  unfold ec2MarkWhere ec2MarkAll
  refine List.map_congr_left ?_
  intro kv hkv
  have : kv.1 ∈ d.map Prod.fst := List.mem_map_of_mem Prod.fst hkv
  simp [this]

theorem ec2MarkAll_keys (d : List (String × Ec2InstanceInfo))
    (ipf : String → String) :
    (ec2MarkAll d ipf).map Prod.fst = d.map Prod.fst := by
  unfold ec2MarkAll
  rw [List.map_map]
  rfl

theorem ec2Mark_idem (ipf : String → String) (kv : String × Ec2InstanceInfo) :
    ec2Mark ipf (ec2Mark ipf kv) = ec2Mark ipf kv := rfl

theorem ec2MarkWhere_markAll (d : List (String × Ec2InstanceInfo))
    (ipf : String → String) :
    ec2MarkWhere (ec2MarkAll d ipf) (d.map Prod.fst) ipf = ec2MarkAll d ipf := by
  have h1 : ec2MarkWhere (ec2MarkAll d ipf) (d.map Prod.fst) ipf =
      ec2MarkWhere (ec2MarkAll d ipf) ((ec2MarkAll d ipf).map Prod.fst) ipf := by
    rw [ec2MarkAll_keys]
  rw [h1, ec2MarkWhere_keys]
  unfold ec2MarkAll
  rw [List.map_map]
  refine List.map_congr_left ?_
  intro kv _
  exact ec2Mark_idem ipf kv

theorem ec2WaitLoop_succ_true {trace : Nat → List (List PolledInstance)}
    {ntries fuel : Nat} {s : Ec2WaitState} (h : ec2WaitCond ntries s = true) :
    ec2WaitLoop trace ntries (fuel + 1) s =
      ec2WaitLoop trace ntries fuel
        { processPoll (trace s.curr_try) s with
          curr_try := (processPoll (trace s.curr_try) s).curr_try + 1 } := by
  rw [ec2WaitLoop, if_pos h]

theorem ec2WaitLoop_succ_false {trace : Nat → List (List PolledInstance)}
    {ntries fuel : Nat} {s : Ec2WaitState} (h : ec2WaitCond ntries s = false) :
    ec2WaitLoop trace ntries (fuel + 1) s = some s := by
  rw [ec2WaitLoop, if_neg (by simp [h])]

theorem ec2WaitLoop_all_running_steps (d : List (String × Ec2InstanceInfo))
    (ipf : String → String) :
    ∀ (fuel i : Nat), i + fuel = 5 → ∀ R : List String,
      R.length = i * d.length →
      ec2WaitLoop (fun _ => allRunningResp (d.map Prod.fst) ipf) 5 (fuel + 1)
        { curr_try := i, ready_instances := R,
          instance_dict := ec2MarkAll d ipf } =
      some { curr_try := 5,
             ready_instances :=
               R ++ (List.replicate fuel (d.map Prod.fst)).flatten,
             instance_dict := ec2MarkAll d ipf } := by
  intro fuel
  induction fuel with
  | zero =>
    intro i hi R hR
    have h5 : i = 5 := by omega
    subst h5
    have hcond : ec2WaitCond 5
        { curr_try := 5, ready_instances := R,
          instance_dict := ec2MarkAll d ipf } = false := by
      have hlen : (ec2MarkAll d ipf).length = d.length := by
        simp [ec2MarkAll]
      simp only [ec2WaitCond, hlen]
      simp only [Bool.or_eq_false_iff, decide_eq_false_iff_not]
      omega
    rw [ec2WaitLoop_succ_false hcond]
    simp
  | succ fuel ih =>
    intro i hi R hR
    have hilt : i < 5 := by omega
    have hcond : ec2WaitCond 5
        { curr_try := i, ready_instances := R,
          instance_dict := ec2MarkAll d ipf } = true := by
      simp [ec2WaitCond, hilt]
    rw [ec2WaitLoop_succ_true hcond]
    simp only [processPoll_all_running, ec2MarkWhere_markAll]
    have := ih (i + 1) (by omega) (R ++ d.map Prod.fst)
      (by simp [List.length_append, List.length_map, hR, Nat.succ_mul])
    rw [this]
    simp [List.replicate_succ, List.append_assoc]

theorem ec2WaitLoop_all_running (d : List (String × Ec2InstanceInfo))
    (ipf : String → String) :
    ec2WaitLoop (fun _ => allRunningResp (d.map Prod.fst) ipf) 5 6
      { curr_try := 0, ready_instances := [], instance_dict := d } =
      some { curr_try := 5,
             ready_instances := (List.replicate 5 (d.map Prod.fst)).flatten,
             instance_dict := ec2MarkAll d ipf } := by
  have hcond : ec2WaitCond 5
      { curr_try := 0, ready_instances := [], instance_dict := d } = true := by
    simp [ec2WaitCond]
  rw [show (6 : Nat) = 5 + 1 from rfl, ec2WaitLoop_succ_true hcond]
  simp only [processPoll_all_running, ec2MarkWhere_keys]
  have := ec2WaitLoop_all_running_steps d ipf 4 1 (by omega)
    ([] ++ d.map Prod.fst) (by simp)
  rw [this]
  simp [List.replicate_succ, List.append_assoc]

theorem pyHeapExt {h1 h2 : PyHeap}
    (e1 : h1.perInstanceTemplate = h2.perInstanceTemplate)
    (e2 : h1.fleetTemplate = h2.fleetTemplate)
    (e3 : h1.profiles = h2.profiles)
    (e4 : h1.secGroupLists = h2.secGroupLists) : h1 = h2 := by
  cases h1; cases h2
  simp only at e1 e2 e3 e4
  simp [e1, e2, e3, e4]

theorem perInstanceWrites_template (h : PyHeap) (arn gid : String) :
    (perInstanceWrites h arn gid).perInstanceTemplate =
      h.perInstanceTemplate := rfl

theorem perInstanceWrites_fleetTemplate (h : PyHeap) (arn gid : String) :
    (perInstanceWrites h arn gid).fleetTemplate = h.fleetTemplate := rfl

theorem perInstanceWrites_profile (h : PyHeap) (arn gid : String) :
    (perInstanceWrites h arn gid).profiles
        h.perInstanceTemplate.IamInstanceProfileRef = { Arn := arn } := by
  simp [perInstanceWrites, writeProfileArn, writeSecGroup0]

theorem perInstanceWrites_secGroups (h : PyHeap) (arn gid : String) :
    (perInstanceWrites h arn gid).secGroupLists
        h.perInstanceTemplate.SecurityGroupsRef =
      (h.secGroupLists h.perInstanceTemplate.SecurityGroupsRef).set 0
        { GroupId := gid } := by
  simp [perInstanceWrites, writeProfileArn, writeSecGroup0]

theorem perInstanceWrites_idem (h : PyHeap) (arn gid : String) :
    perInstanceWrites (perInstanceWrites h arn gid) arn gid =
      perInstanceWrites h arn gid := by
  refine pyHeapExt rfl rfl (funext fun a => ?_) (funext fun a => ?_)
  · by_cases ha : a = h.perInstanceTemplate.IamInstanceProfileRef <;>
      simp [perInstanceWrites, writeProfileArn, writeSecGroup0, ha]
  · by_cases ha : a = h.perInstanceTemplate.SecurityGroupsRef <;>
      simp [perInstanceWrites, writeProfileArn, writeSecGroup0, ha,
        List.set_set]

theorem spotLaunchSpecsLoop_cons (ami sub kp arn gid ud : String) (ebs : Bool)
    (h : PyHeap) (ind : Nat) (t : String) (rest : List String) :
    spotLaunchSpecsLoop ami sub kp arn gid ud ebs none h ind (t :: rest) =
      (spotLaunchSpecsLoop ami sub kp arn gid ud ebs none
          (perInstanceWrites h arn gid) (ind + 1) rest).map
        (fun hr => (hr.1, mkThisInstance h t ami sub kp ud ebs :: hr.2)) := rfl

theorem spotLaunchSpecsLoop_heap (ami sub kp arn gid ud : String) (ebs : Bool) :
    ∀ (l : List String) (h : PyHeap) (ind : Nat), l ≠ [] →
      ∃ specs, spotLaunchSpecsLoop ami sub kp arn gid ud ebs none h ind l =
        some (perInstanceWrites h arn gid, specs) := by
  intro l
  induction l with
  | nil => intro h ind hl; exact absurd rfl hl
  | cons t rest ih =>
    intro h ind _
    by_cases hr : rest = []
    · subst hr
      exact ⟨[mkThisInstance h t ami sub kp ud ebs], rfl⟩
    · obtain ⟨specs, hspecs⟩ := ih (perInstanceWrites h arn gid) (ind + 1) hr
      rw [spotLaunchSpecsLoop_cons, hspecs, perInstanceWrites_idem]
      exact ⟨mkThisInstance h t ami sub kp ud ebs :: specs, rfl⟩

theorem spotLaunchSpecsLoop_none_total (ami sub kp arn gid ud : String)
    (ebs : Bool) :
    ∀ (l : List String) (h : PyHeap) (ind : Nat),
      ∃ p, spotLaunchSpecsLoop ami sub kp arn gid ud ebs none h ind l =
        some p := by
  intro l
  induction l with
  | nil => intro h ind; exact ⟨_, rfl⟩
  | cons t rest ih =>
    intro h ind
    obtain ⟨p, hp⟩ := ih (perInstanceWrites h arn gid) (ind + 1)
    rw [spotLaunchSpecsLoop_cons, hp]
    exact ⟨(p.1, mkThisInstance h t ami sub kp ud ebs :: p.2), rfl⟩

theorem spotFleetWaitAux_polls_le (trace : Nat → Except Unit (List String)) :
    ∀ (fuel curr p s : Nat) (b : Bool),
      spotFleetWaitAux trace fuel curr = .ok (p, s, b) → p ≤ fuel := by
  intro fuel
  induction fuel with
  | zero =>
    intro curr p s b h
    simp only [spotFleetWaitAux] at h
    cases h
    exact Nat.le_refl 0
  | succ fuel ih =>
    intro curr p s b h
    rw [spotFleetWaitAux] at h
    cases htr : trace curr with
    | error e => simp [htr] at h
    | ok states =>
      simp only [htr] at h
      by_cases hact : states.head? = some "active"
      · simp only [if_pos hact, Except.ok.injEq, Prod.mk.injEq] at h
        omega
      · simp only [if_neg hact] at h
        cases haux : spotFleetWaitAux trace fuel (curr + 1) with
        | error e => simp [haux] at h
        | ok pr =>
          obtain ⟨p', s', b'⟩ := pr
          simp only [haux, Except.ok.injEq, Prod.mk.injEq] at h
          have := ih (curr + 1) p' s' b' haux
          omega

theorem spotFleetWaitAux_never_active
    (trace : Nat → Except Unit (List String)) :
    ∀ (fuel curr : Nat),
      (∀ m, m < fuel →
        ∃ sts, trace (curr + m) = .ok sts ∧ sts.head? ≠ some "active") →
      spotFleetWaitAux trace fuel curr = .ok (fuel, 15 * fuel, false) := by
  intro fuel
  induction fuel with
  | zero => intro curr _; rfl
  | succ fuel ih =>
    intro curr hna
    obtain ⟨sts, hts, hact⟩ := hna 0 (Nat.succ_pos fuel)
    rw [Nat.add_zero] at hts
    have hrec := ih (curr + 1) (fun m hm => by
      obtain ⟨s2, h2, ha2⟩ := hna (m + 1) (by omega)
      exact ⟨s2, by rw [show curr + 1 + m = curr + (m + 1) by omega]; exact h2,
        ha2⟩)
    simp only [spotFleetWaitAux, hts, if_neg hact, hrec]
    rw [Nat.mul_succ]

theorem spotFleetWaitAux_first_active
    (trace : Nat → Except Unit (List String)) :
    ∀ (n fuel curr : Nat), n < fuel →
      (∀ m, m < n →
        ∃ sts, trace (curr + m) = .ok sts ∧ sts.head? ≠ some "active") →
      ∀ sts, trace (curr + n) = .ok sts → sts.head? = some "active" →
      spotFleetWaitAux trace fuel curr = .ok (n + 1, 15 * n, true) := by
  intro n
  induction n with
  | zero =>
    intro fuel curr hn hpre sts hts hact
    obtain ⟨fuel', rfl⟩ : ∃ f, fuel = f + 1 :=
      ⟨fuel - 1, by omega⟩
    rw [Nat.add_zero] at hts
    simp [spotFleetWaitAux, hts, hact]
  | succ n ih =>
    intro fuel curr hn hpre sts hts hact
    obtain ⟨fuel', rfl⟩ : ∃ f, fuel = f + 1 :=
      ⟨fuel - 1, by omega⟩
    obtain ⟨s0, h0, ha0⟩ := hpre 0 (Nat.succ_pos n)
    rw [Nat.add_zero] at h0
    have hrec := ih fuel' (curr + 1) (by omega)
      (fun m hm => by
        obtain ⟨s2, h2, ha2⟩ := hpre (m + 1) (by omega)
        exact ⟨s2, by rw [show curr + 1 + m = curr + (m + 1) by omega]; exact h2,
          ha2⟩)
      sts (by rw [show curr + 1 + n = curr + (n + 1) by omega]; exact hts) hact
    simp only [spotFleetWaitAux, h0, if_neg ha0, hrec]
    rw [Nat.mul_succ]

theorem spotFleetWaitAux_total (trace : Nat → Except Unit (List String))
    (hok : ∀ n, ∃ sts, trace n = .ok sts) :
    ∀ (fuel curr : Nat), ∃ pr, spotFleetWaitAux trace fuel curr = .ok pr := by
  intro fuel
  induction fuel with
  | zero => intro curr; exact ⟨_, rfl⟩
  | succ fuel ih =>
    intro curr
    obtain ⟨sts, hts⟩ := hok curr
    by_cases hact : sts.head? = some "active"
    · exact ⟨(1, 0, true), by simp [spotFleetWaitAux, hts, hact]⟩
    · obtain ⟨⟨p, s, b⟩, hrec⟩ := ih (curr + 1)
      exact ⟨(p + 1, s + 15, b), by simp [spotFleetWaitAux, hts, hact, hrec]⟩

theorem s3_try_alts_all_fail {dl : String → String → Bool}
    {bucket filename : String} (local_file : String) :
    ∀ exts : List String,
      (∀ a ∈ exts, dl bucket ((splitext filename).1 ++ a) = false) →
      s3_try_alts dl bucket filename local_file exts = none := by
  intro exts
  induction exts with
  | nil => intro _; rfl
  | cons a rest ih =>
    intro hfail
    rw [s3_try_alts, if_neg (by
      rw [hfail a (List.mem_cons_self a rest)]
      exact Bool.false_ne_true)]
    exact ih (fun x hx => hfail x (List.mem_cons_of_mem a hx))

theorem s3_try_alts_first_success {dl : String → String → Bool}
    {bucket filename : String} (local_file : String) :
    ∀ (pre : List String) (alt : String) (rest : List String),
      (∀ a ∈ pre, dl bucket ((splitext filename).1 ++ a) = false) →
      dl bucket ((splitext filename).1 ++ alt) = true →
      s3_try_alts dl bucket filename local_file (pre ++ alt :: rest) =
        some (local_file.replace (splitext filename).2 alt) := by
  intro pre
  induction pre with
  | nil =>
    intro alt rest _ hok
    rw [List.nil_append, s3_try_alts, if_pos hok]
  | cons a pre ih =>
    intro alt rest hfail hok
    rw [List.cons_append, s3_try_alts, if_neg (by
      rw [hfail a (List.mem_cons_self a pre)]
      exact Bool.false_ne_true)]
    exact ih alt rest (fun x hx => hfail x (List.mem_cons_of_mem a hx)) hok

theorem sqsCollectMessages_append (json_loads : String → Option String) :
    ∀ l1 l2 : List SqsRawMessage,
      sqsCollectMessages json_loads (l1 ++ l2) =
        sqsCollectMessages json_loads l1 ++ sqsCollectMessages json_loads l2 := by
  intro l1
  induction l1 with
  | nil => intro l2; rfl
  | cons m rest ih =>
    intro l2
    rw [List.cons_append, sqsCollectMessages, sqsCollectMessages]
    cases json_loads m.Body with
    | none => exact ih l2
    | some it => rw [ih l2]; rfl

theorem sqsCollectMessages_skip (json_loads : String → Option String)
    {bad : SqsRawMessage} (hbad : json_loads bad.Body = none)
    (post : List SqsRawMessage) :
    sqsCollectMessages json_loads (bad :: post) =
      sqsCollectMessages json_loads post := by
  rw [sqsCollectMessages, hbad]

/-! ## Claim theorems -/

/-- C1, counterexample: with one requested instance and a provider that
reports it `pending` on every poll, the readiness loop of `make_ec2_nodes`
is still running after 6 iterations (the nominal cap of 5 plus the claimed
one-extra-iteration slack) and still after 50 — it does not terminate at the
attempt cap, because the inclusive-or guard keeps it looping while not all
instances are confirmed running. -/
theorem c1_counterexample :
    make_ec2_nodes_after_launch neverRunningTrace oneNodeDict true 6 = none ∧
    make_ec2_nodes_after_launch neverRunningTrace oneNodeDict true 50 = none :=
  ⟨rfl, rfl⟩

/-- C1 (amended): when `wait_until_up=True`, at least one instance was
launched, and the provider never reports any instance `running`, the poll
loop of `make_ec2_nodes` never exits: after any number of iterations it is
still running, so the function does not return at the fixed attempt cap of
5 (nor ever). -/
theorem c1_theorem (trace : Nat → List (List PolledInstance))
    (d : List (String × Ec2InstanceInfo)) (hnr : NeverRunning trace)
    (hd : d ≠ []) (fuel : Nat) :
    make_ec2_nodes_after_launch trace d true fuel = none := by
  unfold make_ec2_nodes_after_launch
  rw [if_pos rfl, ec2WaitLoop_never_running hnr hd fuel 0]

/-- C1, witness: the amended theorem applied to the concrete never-running
provider and the one-instance launch. -/
theorem c1_witness :
    make_ec2_nodes_after_launch neverRunningTrace oneNodeDict true 7 = none :=
  c1_theorem neverRunningTrace oneNodeDict
    (by
      intro n resv inst hresv hinst
      rw [neverRunningTrace, List.mem_singleton] at hresv
      subst hresv
      rw [List.mem_singleton] at hinst
      subst hinst
      decide)
    (by decide) 7

/-- C2, counterexample: with one requested instance that the provider
reports `running` from the very first poll, `make_ec2_nodes` does **not**
return within one poll cycle: after one iteration (fuel 2) the loop guard is
still true (`curr_try = 1 < 5`), and the loop only exits after 5 full poll
cycles. -/
theorem c2_counterexample :
    make_ec2_nodes_after_launch instantRunningTrace oneNodeDict true 2 = none ∧
    (ec2WaitLoop instantRunningTrace 5 6
        { curr_try := 0, ready_instances := [],
          instance_dict := oneNodeDict }).map (fun s => s.curr_try) =
      some 5 :=
  ⟨rfl, rfl⟩

/-- C2 (amended): when `wait_until_up=True` and the provider reports every
requested instance as `running` on the first poll (and every later one), the
poll loop of `make_ec2_nodes` exits after exactly the fixed attempt cap of 5
poll cycles — not within one — and the function then returns with every
instance in the returned mapping marked `running`. -/
theorem c2_theorem (d : List (String × Ec2InstanceInfo))
    (ipf : String → String) :
    ec2WaitLoop (fun _ => allRunningResp (d.map Prod.fst) ipf) 5 6
        { curr_try := 0, ready_instances := [], instance_dict := d } =
      some { curr_try := 5,
             ready_instances := (List.replicate 5 (d.map Prod.fst)).flatten,
             instance_dict := ec2MarkAll d ipf } ∧
    (ec2MarkAll d ipf).map (fun kv => kv.2.state) =
      d.map (fun _ => "running") ∧
    make_ec2_nodes_after_launch (fun _ => allRunningResp (d.map Prod.fst) ipf)
        d true 6 =
      some (ec2MarkAll d ipf,
        ec2AllUpReported
          { curr_try := 5,
            ready_instances := (List.replicate 5 (d.map Prod.fst)).flatten,
            instance_dict := ec2MarkAll d ipf }) := by
  refine ⟨ec2WaitLoop_all_running d ipf, ?_, ?_⟩
  · unfold ec2MarkAll
    rw [List.map_map]
    rfl
  · unfold make_ec2_nodes_after_launch
    rw [if_pos rfl, ec2WaitLoop_all_running d ipf]

/-- C10: with two requested instances of which only `i-0aaa` is ever
reported `running` (on polls 3 and 4), the `ready_instances` list
accumulates the duplicate `["i-0aaa", "i-0aaa"]`, whose length reaches the
requested count 2, so the loop exits at the attempt cap and the function
logs `all instances now up.` even though `i-0bbb` is still `pending` in the
returned mapping. -/
theorem c10_theorem :
    (ec2WaitLoop subsetRunTrace 5 6
        { curr_try := 0, ready_instances := [],
          instance_dict := twoNodeDict }).map
        (fun s => (s.curr_try, s.ready_instances, ec2AllUpReported s,
          (s.instance_dict.lookup "i-0bbb").map (fun v => v.state))) =
      some (5, ["i-0aaa", "i-0aaa"], true, some "pending") ∧
    twoNodeDict.length = 2 ∧
    make_ec2_nodes_after_launch subsetRunTrace twoNodeDict true 6 =
      some ([("i-0aaa",
              { itype := "t3.micro", launched := "2018-10-11T00:00:00",
                state := "running", ip := some "54.0.0.1" }),
             ("i-0bbb",
              { itype := "t3.micro", launched := "2018-10-11T00:00:00",
                state := "pending", ip := none })], true) := by
  refine ⟨?_, rfl, ?_⟩ <;> rfl

/-- C3, counterexample: after one call of the config builder of
`make_spot_fleet_cluster` (types `["m5.xlarge"]`, IAM arn `arn-me`,
security group `sg-0123`), the module-level `SPOT_PERINSTANCE_CONFIG`
template's **nested** `IamInstanceProfile` dict and `SecurityGroups` list —
the heap objects it references — have been mutated to the call's values:
`dict.copy()` is shallow, so the nested objects are shared, not cloned. -/
theorem c3_counterexample :
    (make_spot_fleet_cluster_config initialPyHeap "sg-0123" "subnet-0aa"
        "mykeypair" "arn-me" "arn-fleet-role" 20 "0.4"
        "2018-10-18T00:00:00Z" "lowestPrice" ["m5.xlarge"] none
        "ami-04681a1dbd79675a5" "dXNlcmRhdGE=" true).map
        (fun hr =>
          (hr.1.profiles SPOT_PERINSTANCE_CONFIG.IamInstanceProfileRef,
           hr.1.secGroupLists SPOT_PERINSTANCE_CONFIG.SecurityGroupsRef)) =
      some ({ Arn := "arn-me" }, [{ GroupId := "sg-0123" }]) ∧
    initialPyHeap.profiles SPOT_PERINSTANCE_CONFIG.IamInstanceProfileRef =
      { Arn := "instance-profile-role-arn" } ∧
    ({ Arn := "arn-me" } : IamInstanceProfileDict) ≠
      { Arn := "instance-profile-role-arn" } :=
  ⟨rfl, rfl, by decide⟩

/-- C3 (amended): per call, the fleet template is deep-cloned and the
per-instance template is only shallow-cloned: the top-level template dicts
(`SPOT_PERINSTANCE_CONFIG`, `SPOT_FLEET_CONFIG`) are left unchanged, but the
per-instance template's nested IAM-instance-profile dict and security-group
list are shared with every shallow copy and are mutated in place to the
call's values — a later call starts from (and observes) the previous call's
mutation rather than the pristine template. -/
theorem c3_theorem (h : PyHeap) (sg sub kp arn role : String) (tc : Nat)
    (price valid alloc : String) (t : String) (rest : List String)
    (ami ud : String) (ebs : Bool) :
    (make_spot_fleet_cluster_config h sg sub kp arn role tc price valid
        alloc (t :: rest) none ami ud ebs).map
      (fun hr =>
        (hr.1.perInstanceTemplate, hr.1.fleetTemplate,
         hr.1.profiles h.perInstanceTemplate.IamInstanceProfileRef,
         hr.1.secGroupLists h.perInstanceTemplate.SecurityGroupsRef)) =
      some (h.perInstanceTemplate, h.fleetTemplate,
        { Arn := arn },
        (h.secGroupLists h.perInstanceTemplate.SecurityGroupsRef).set 0
          { GroupId := sg }) := by
  obtain ⟨specs, hspecs⟩ :=
    spotLaunchSpecsLoop_heap ami sub kp arn sg ud ebs (t :: rest) h 0
      (by simp)
  unfold make_spot_fleet_cluster_config
  rw [hspecs]
  simp only [Option.map_some']
  rw [perInstanceWrites_profile, perInstanceWrites_secGroups,
    perInstanceWrites_template, perInstanceWrites_fleetTemplate]

/-- C4, counterexample: `delete_ec2_nodes` does not follow the two-tier
error policy — it wraps `terminate_instances` in no `try/except` and has no
`raiseonfail` flag, so a provider-side error propagates instead of being
converted to a sentinel; and `sqs_create_queue` offers no hard-fail flag: a
raised provider exception is always converted to `None`. -/
theorem c4_counterexample :
    delete_ec2_nodes (fun _ => (.error () : Except Unit Unit)) ["i-0aaa"] =
      .error () ∧
    sqs_create_queue (.error ()) "lcproc_queue_runcp" = none :=
  ⟨rfl, rfl⟩

/-- C4 (amended): the two-tier policy is not uniform across the operations.
It does hold for `s3_put_file` and `sqs_get_item` (a provider error yields
the `None` sentinel by default and propagates under `raiseonfail`); but
`sqs_create_queue` and `sqs_delete_queue` always soft-fail and offer no
hard-fail flag; `delete_ec2_nodes` and `delete_spot_fleet_cluster` have no
error handling at all — a provider error always propagates and there is no
soft default; and `s3_get_file` takes the flag but honors it only on its
no-alternates path — with alternates supplied and every download failing it
returns the unlogged `None` sentinel even under `raiseonfail=True`, while
without alternates the same failure is logged and soft/hard-failed per the
flag. -/
theorem c4_theorem :
    (∀ lf b : String, s3_put_file (.error ()) lf b false = .ok none) ∧
    (∀ lf b : String, s3_put_file (.error ()) lf b true = .error ()) ∧
    (∀ jl : String → Option String,
      sqs_get_item jl (.error ()) false = .ok none ∧
      sqs_get_item jl (.error ()) true = .error ()) ∧
    (∀ q : String, sqs_create_queue (.error ()) q = none) ∧
    sqs_delete_queue (.error ()) = false ∧
    (∀ (α : Type) (p : List String → Except Unit α) (l : List String),
      delete_ec2_nodes p l = p l) ∧
    (∀ (α : Type) (cancel : CancelSpotFleetArgs → Except Unit α) (r : String),
      (delete_spot_fleet_cluster cancel r).1 =
        cancel { SpotFleetRequestIds := [r], TerminateInstances := true }) ∧
    s3_get_file dlNothing "bkt" "f.gz" "/tmp/f.gz" (some [".a1", ".a2"])
        true =
      (.ok none, false) ∧
    s3_get_file dlNothing "bkt" "f.gz" "/tmp/f.gz" none true =
      (.error (), true) ∧
    s3_get_file dlNothing "bkt" "f.gz" "/tmp/f.gz" none false =
      (.ok none, true) :=
  ⟨fun _ _ => rfl, fun _ _ => rfl, fun _ => ⟨rfl, rfl⟩, fun _ => rfl, rfl,
    fun _ _ _ => rfl, fun _ _ _ => rfl, rfl, rfl, rfl⟩

/-- C5: when the primary key fails to download and `altexts` is given,
`s3_get_file` tries each alternate extension strictly in the supplied order
(substituting the extension of `filename`), returns the substituted
destination path of the first success, and returns the `None` sentinel when
the primary and every alternate fail. -/
theorem c5_theorem :
    (∀ (dl : String → String → Bool)
       (bucket filename local_file : String) (pre : List String)
       (alt : String) (rest : List String) (rof : Bool),
      dl bucket filename = false →
      (∀ a ∈ pre, dl bucket ((splitext filename).1 ++ a) = false) →
      dl bucket ((splitext filename).1 ++ alt) = true →
      s3_get_file dl bucket filename local_file (some (pre ++ alt :: rest))
          rof =
        (.ok (some (local_file.replace (splitext filename).2 alt)), false)) ∧
    (∀ (dl : String → String → Bool)
       (bucket filename local_file : String) (exts : List String)
       (rof : Bool),
      dl bucket filename = false →
      (∀ a ∈ exts, dl bucket ((splitext filename).1 ++ a) = false) →
      s3_get_file dl bucket filename local_file (some exts) rof =
        (.ok none, false)) := by
  constructor
  · intro dl bucket filename local_file pre alt rest rof hprim hpre hok
    unfold s3_get_file
    rw [if_neg (by rw [hprim]; exact Bool.false_ne_true)]
    show (Except.ok (s3_try_alts dl bucket filename local_file
      (pre ++ alt :: rest)), false) = _
    rw [s3_try_alts_first_success local_file pre alt rest hpre hok]
  · intro dl bucket filename local_file exts rof hprim hfail
    unfold s3_get_file
    rw [if_neg (by rw [hprim]; exact Bool.false_ne_true)]
    show (Except.ok (s3_try_alts dl bucket filename local_file exts),
      false) = _
    rw [s3_try_alts_all_fail local_file exts hfail]

/-- C5, witness: against an oracle where only `f.a2` exists, fetching `f.gz`
with alternates `[".a1", ".a2", ".a3"]` skips `.a1`, succeeds at `.a2` and
returns the substituted local path; against an oracle where nothing exists,
the same fetch returns the `None` sentinel. -/
theorem c5_witness :
    s3_get_file dlOnlyAlt2 "bkt" "f.gz" "/tmp/f.gz"
        (some [".a1", ".a2", ".a3"]) false =
      (.ok (some ("/tmp/f.gz".replace (splitext "f.gz").2 ".a2")), false) ∧
    s3_get_file dlNothing "bkt" "f.gz" "/tmp/f.gz"
        (some [".a1", ".a2", ".a3"]) false =
      (.ok none, false) :=
  ⟨c5_theorem.1 dlOnlyAlt2 "bkt" "f.gz" "/tmp/f.gz" [".a1"] ".a2" [".a3"]
      false (by decide) (by decide) (by decide),
   c5_theorem.2 dlNothing "bkt" "f.gz" "/tmp/f.gz" [".a1", ".a2", ".a3"]
      false (by decide) (by decide)⟩

/-- C9: when `altexts` is supplied and the primary key and every alternate
fail, `s3_get_file` returns `None` without calling `LOGEXCEPTION` and
without re-raising even when `raiseonfail=True`; the hard-fail flag is
honored only on the no-alternates path, where the failure is logged and
re-raised. -/
theorem c9_theorem :
    (∀ (dl : String → String → Bool)
       (bucket filename local_file : String) (exts : List String),
      dl bucket filename = false →
      (∀ a ∈ exts, dl bucket ((splitext filename).1 ++ a) = false) →
      s3_get_file dl bucket filename local_file (some exts) true =
        (.ok none, false)) ∧
    (∀ (dl : String → String → Bool)
       (bucket filename local_file : String),
      dl bucket filename = false →
      s3_get_file dl bucket filename local_file none true =
        (.error (), true)) := by
  constructor
  · intro dl bucket filename local_file exts hprim hfail
    unfold s3_get_file
    rw [if_neg (by rw [hprim]; exact Bool.false_ne_true)]
    show (Except.ok (s3_try_alts dl bucket filename local_file exts),
      false) = _
    rw [s3_try_alts_all_fail local_file exts hfail]
  · intro dl bucket filename local_file hprim
    unfold s3_get_file
    rw [if_neg (by rw [hprim]; exact Bool.false_ne_true)]
    rfl

/-- C9, witness: with `raiseonfail=True` and exhausted alternates the call
returns the unlogged `None` sentinel, while the same failure without
alternates is logged and re-raised. -/
theorem c9_witness :
    s3_get_file dlNothing "bkt" "f.gz" "/tmp/f.gz" (some [".a1", ".a2"])
        true =
      (.ok none, false) ∧
    s3_get_file dlNothing "bkt" "f.gz" "/tmp/f.gz" none true =
      (.error (), true) :=
  ⟨c9_theorem.1 dlNothing "bkt" "f.gz" "/tmp/f.gz" [".a1", ".a2"]
      (by decide) (by decide),
   c9_theorem.2 dlNothing "bkt" "f.gz" "/tmp/f.gz" (by decide)⟩

/-- C6: a long-poll of `sqs_get_item` that times out with no messages
returns the empty list (success with zero items), which is a different
value from the hard-failure result `None`; and a per-item deserialization
failure is isolated — the corrupt message is skipped while every other
message of the batch, before and after it, is still returned. -/
theorem c6_theorem :
    (∀ (jl : String → Option String) (r : Bool),
      sqs_get_item jl (.ok (some [])) r = .ok (some [])) ∧
    ((Except.ok (some ([] : List SqsMessage)) :
        Except Unit (Option (List SqsMessage))) ≠ .ok none) ∧
    (∀ (jl : String → Option String) (pre : List SqsRawMessage)
       (bad : SqsRawMessage) (post : List SqsRawMessage) (r : Bool),
      jl bad.Body = none →
      sqs_get_item jl (.ok (some (pre ++ bad :: post))) r =
        .ok (some (sqsCollectMessages jl pre ++
          sqsCollectMessages jl post))) := by
  refine ⟨fun _ _ => rfl, by simp, ?_⟩
  intro jl pre bad post r hbad
  unfold sqs_get_item
  show Except.ok (some (sqsCollectMessages jl (pre ++ bad :: post))) = _
  rw [sqsCollectMessages_append, sqsCollectMessages_skip jl hbad post]

/-- C6, witness: a batch of three messages whose middle body is `corrupt`
yields exactly the first and third messages, deserialized; the empty batch
yields the empty list. -/
theorem c6_witness :
    sqs_get_item jsonLoadsNoCorrupt (.ok (some [])) false = .ok (some []) ∧
    sqs_get_item jsonLoadsNoCorrupt
        (.ok (some [mkRawMsg "m1" "job1", mkRawMsg "m2" "corrupt",
                    mkRawMsg "m3" "job3"])) false =
      .ok (some
        [{ id := "m1", receipt_handle := "rh-m1", md5 := "md5-m1",
           attributes := [("SentTimestamp", "0")], item := "job1" },
         { id := "m3", receipt_handle := "rh-m3", md5 := "md5-m3",
           attributes := [("SentTimestamp", "0")], item := "job3" }]) := by
  refine ⟨c6_theorem.1 jsonLoadsNoCorrupt false, ?_⟩
  have h := c6_theorem.2.2 jsonLoadsNoCorrupt [mkRawMsg "m1" "job1"]
    (mkRawMsg "m2" "corrupt") [mkRawMsg "m3" "job3"] false (by decide)
  exact h.trans rfl

/-- C7: `delete_spot_fleet_cluster` issues exactly one provider call,
`cancel_spot_fleet_requests` on the single given fleet request id with
`TerminateInstances=True` — there is no code path that cancels without
requesting termination — and returns the raw cancellation outcome. -/
theorem c7_theorem (α : Type) (cancel : CancelSpotFleetArgs → Except Unit α)
    (reqid : String) :
    delete_spot_fleet_cluster cancel reqid =
      (cancel { SpotFleetRequestIds := [reqid], TerminateInstances := true },
       [{ SpotFleetRequestIds := [reqid], TerminateInstances := true }]) ∧
    (delete_spot_fleet_cluster cancel reqid).2.length = 1 :=
  ⟨rfl, rfl⟩

/-- C8: for a successfully submitted fleet request with
`wait_until_up=True`, `make_spot_fleet_cluster` polls
`describe_spot_fleet_requests` with a fixed attempt cap of 10 and a fixed
delay of 15 seconds per non-active attempt: it never issues more than 10
polls; if the reported state first equals `active` at poll `n` it stops
there (`n + 1` polls, `15 * n` seconds slept); if `active` is never
reported it exhausts all 10 polls (150 seconds slept); and in either case
the function returns the fleet request id rather than raising. -/
theorem c8_theorem :
    (∀ (trace : Nat → Except Unit (List String)) (p s : Nat) (b : Bool),
      spotFleetWait trace = .ok (p, s, b) → p ≤ 10) ∧
    (∀ (trace : Nat → Except Unit (List String)) (n : Nat), n < 10 →
      (∀ m, m < n → ∃ sts, trace m = .ok sts ∧ sts.head? ≠ some "active") →
      ∀ sts, trace n = .ok sts → sts.head? = some "active" →
      spotFleetWait trace = .ok (n + 1, 15 * n, true)) ∧
    (∀ trace : Nat → Except Unit (List String),
      (∀ m, m < 10 → ∃ sts, trace m = .ok sts ∧ sts.head? ≠ some "active") →
      spotFleetWait trace = .ok (10, 150, false)) ∧
    (∀ (h : PyHeap) (dtrace : Nat → Except Unit (List String))
       (sg sub kp arn role : String) (tc : Nat)
       (price valid alloc : String) (types : List String) (ami ud : String)
       (ebs rof : Bool) (reqid : String),
      (∀ n, ∃ sts, dtrace n = .ok sts) →
      ∃ h' polls slept,
        make_spot_fleet_cluster h (fun _ => .ok (some reqid)) dtrace sg sub
            kp arn role tc price valid alloc types none ami ud ebs true
            rof =
          some (h', .ok (some reqid), (polls, slept))) := by
  refine ⟨?_, ?_, ?_, ?_⟩
  · intro trace p s b hw
    exact spotFleetWaitAux_polls_le trace 10 0 p s b hw
  · intro trace n hn hpre sts hts hact
    exact spotFleetWaitAux_first_active trace n 10 0 hn
      (fun m hm => by rw [Nat.zero_add]; exact hpre m hm) sts
      (by rw [Nat.zero_add]; exact hts) hact
  · intro trace hna
    exact spotFleetWaitAux_never_active trace 10 0
      (fun m hm => by rw [Nat.zero_add]; exact hna m hm)
  · intro h dtrace sg sub kp arn role tc price valid alloc types ami ud ebs
      rof reqid hok
    obtain ⟨⟨h2, specs⟩, hloop⟩ :=
      spotLaunchSpecsLoop_none_total ami sub kp arn sg ud ebs types h 0
    have hcfg : ∃ cfg, make_spot_fleet_cluster_config h sg sub kp arn role
        tc price valid alloc types none ami ud ebs = some (h2, cfg) := by
      unfold make_spot_fleet_cluster_config
      rw [hloop]
      exact ⟨_, rfl⟩
    obtain ⟨cfg, hcfg⟩ := hcfg
    obtain ⟨⟨p, s, b⟩, hwait⟩ := spotFleetWaitAux_total dtrace hok 10 0
    refine ⟨h2, p, s, ?_⟩
    unfold make_spot_fleet_cluster
    rw [hcfg]
    show (match spotFleetWait dtrace with
      | Except.error _ =>
        some (h2, if rof then Except.error () else Except.ok none, (0, 0))
      | Except.ok (polls, slept, _) =>
        some (h2, Except.ok (some reqid), (polls, slept))) = _
    rw [show spotFleetWait dtrace = .ok (p, s, b) from hwait]

/-- C8, witness: against a provider first reporting `active` at poll 3, the
wait loop stops after 4 polls and 45 seconds; against a provider that never
reports `active`, it exhausts 10 polls and 150 seconds; and the full call
with the never-active provider still returns the request id `sfr-1`. -/
theorem c8_witness :
    spotFleetWait fleetActiveAt3 = .ok (4, 45, true) ∧
    spotFleetWait fleetNeverActive = .ok (10, 150, false) ∧
    (∃ h' polls slept,
      make_spot_fleet_cluster initialPyHeap (fun _ => .ok (some "sfr-1"))
          fleetNeverActive "sg-0123" "subnet-0aa" "kp" "arn-a" "arn-r" 20
          "0.4" "2018-10-25T00:00:00Z" "lowestPrice" ["m5.xlarge"] none
          "ami-04681a1dbd79675a5" "dXNlcmRhdGE=" true true false =
        some (h', .ok (some "sfr-1"), (polls, slept))) := by
  refine ⟨?_, ?_, ?_⟩
  · exact c8_theorem.2.1 fleetActiveAt3 3 (by decide)
      (fun m hm => ⟨["submitted"], by
          rw [show fleetActiveAt3 m = .ok ["submitted"] from by
            simp [fleetActiveAt3, show m ≠ 3 by omega]],
        by decide⟩)
      ["active"] (by simp [fleetActiveAt3]) (by decide)
  · exact c8_theorem.2.2.1 fleetNeverActive
      (fun m hm => ⟨["submitted"], rfl, by decide⟩)
  · exact c8_theorem.2.2.2 initialPyHeap fleetNeverActive "sg-0123"
      "subnet-0aa" "kp" "arn-a" "arn-r" 20 "0.4" "2018-10-25T00:00:00Z"
      "lowestPrice" ["m5.xlarge"] "ami-04681a1dbd79675a5" "dXNlcmRhdGE="
      true false "sfr-1" (fun n => ⟨["submitted"], rfl⟩)

end Awsutils
